import Mathlib

/-!
Shallow embedding of the GUS (Salesforce work-tracking) integration core and the
OmniFocus name-resolution helper of the Obsidian plugin, together with theorems
settling the specification claims about them.

Conventions of the embedding:
* JS strings are Lean `String`s; `null`/`undefined`-able values are `Option`s.
* Query-string parameters are modelled as the values `URLSearchParams.get`
  returns to the code (`none` for an absent parameter, `some s` otherwise).
* Parsed JSON response bodies are modelled by a record holding exactly the
  fields the code reads (an absent field is `none`); a body that fails to
  parse is the all-`none` record, mirroring `res.json().catch(() => ({}))`.
* HTTP transports (`RequestFn`) are modelled by a finite transcript of
  responses consumed in order; the functions also return the list of URLs
  they requested, so call counts and call targets are provable.
* Timestamps are epoch milliseconds (`Int`); `new Date(s).getTime()` /
  `toISOString` round-trips are modelled as the identity on that number.
-/

set_option linter.unusedVariables false

/-- Does the first character list occur at the head of the second?
(character-level string prefix test). -/
def charsLeads : List Char → List Char → Bool
  | [], _ => true
  | _ :: _, [] => false
  | a :: as, b :: bs => a == b && charsLeads as bs

/-- Does `needle` occur contiguously anywhere in the list? (JS `String.prototype.includes`). -/
def charsContains (needle : List Char) : List Char → Bool
  | [] => charsLeads needle []
  | c :: cs => charsLeads needle (c :: cs) || charsContains needle cs

/-- JS `hay.includes(needle)`. -/
def strIncludes (hay needle : String) : Bool :=
  charsContains needle.data hay.data

/-- JS `String.prototype.toLowerCase` (the candidate names involved are ASCII,
where the two agree character by character). -/
def strLower (s : String) : String :=
  String.mk (s.data.map Char.toLower)

/-- Outcome of `resolveProject` (src/omnifocus.ts): a resolved name, or one of the
two thrown errors together with the list of names the error message enumerates. -/
inductive ResolveOutcome where
  | resolved (name : String)
  | ambiguous (hits : List String)
  | notFound (available : List String)
  deriving DecidableEq, Repr

/-- `resolveProject` from src/omnifocus.ts lines 151-181: case-insensitive exact
match first (`projects.find`), else case-insensitive substring filter; one match
resolves, several throw the "Ambiguous project" error listing the matches, none
throws the "No project matching" error listing all projects. -/
def resolveProject (query : String) (projects : List String) : ResolveOutcome :=
  let lowerQuery := strLower query
  match projects.find? (fun p => strLower p == lowerQuery) with
  | some exact => .resolved exact
  | none =>
    let hits := projects.filter (fun p => strIncludes (strLower p) lowerQuery)
    match hits with
    | [m] => .resolved m
    | [] => .notFound projects
    | _ => .ambiguous hits

/-- Name resolution as the spec words it (claim C6): the case-insensitive exact
matches are collected in candidate order and the first is returned; otherwise the
case-insensitive substring matches, in candidate order, decide the outcome. -/
def resolveProjectSpec (query : String) (projects : List String) : ResolveOutcome :=
  let lowerQuery := strLower query
  match projects.filter (fun p => strLower p == lowerQuery) with
  | exact :: _ => .resolved exact
  | [] =>
    let hits := projects.filter (fun p => strIncludes (strLower p) lowerQuery)
    match hits with
    | [m] => .resolved m
    | [] => .notFound projects
    | _ => .ambiguous hits

/-- Global leftmost non-overlapping literal replacement on character lists:
the semantics of JS `s.replace(/pat/g, rep)` for a literal pattern `pat`
(the `$`-escape forms of JS replacement strings are not modelled; no
replacement string in this code relies on them). The `Nat` fuel always equals
an upper bound on the length of the list being scanned (`charsReplace` passes
the exact length), which keeps the recursion structural; the fuel-exhausted
arm is unreachable under that bound. -/
def charsReplaceAux (pat rep : List Char) : Nat → List Char → List Char
  | _, [] => []
  | 0, l => l
  | n + 1, c :: cs =>
    if charsLeads pat (c :: cs) then
      rep ++ charsReplaceAux pat rep n (List.drop (pat.length - 1) cs)
    else
      c :: charsReplaceAux pat rep n cs

def charsReplace (pat rep l : List Char) : List Char :=
  charsReplaceAux pat rep l.length l

/-- JS `s.replace(/pat/g, rep)` for a literal pattern, on `String`s. -/
def strReplaceAll (s pat rep : String) : String :=
  String.mk (charsReplace pat.data rep.data s.data)

/-- Values for query template substitution (interface QueryTemplateValues). -/
structure QueryTemplateValues where
  me : Option String
  team : Option String
  product_tag : Option String
  deriving DecidableEq, Repr

/-- `substituteQueryTemplate` from part_002 lines 799-807: three sequential
global replaces; a missing value replaces the token with itself. -/
def substituteQueryTemplate (template : String) (values : QueryTemplateValues) : String :=
  strReplaceAll
    (strReplaceAll
      (strReplaceAll template "${me}" (values.me.getD "${me}"))
      "${team}" (values.team.getD "${team}"))
    "${product_tag}" (values.product_tag.getD "${product_tag}")

/-- Template substitution as claim C7 words it: a single simultaneous pass over
the template replacing every occurrence of a supplied token with its value,
leaving unsupplied tokens and all other text untouched. -/
def simulSubstAux (values : QueryTemplateValues) : Nat → List Char → List Char
  | _, [] => []
  | 0, l => l
  | n + 1, c :: cs =>
    if charsLeads "${me}".data (c :: cs) && values.me.isSome then
      (values.me.getD "").data ++ simulSubstAux values n (List.drop 4 cs)
    else if charsLeads "${team}".data (c :: cs) && values.team.isSome then
      (values.team.getD "").data ++ simulSubstAux values n (List.drop 6 cs)
    else if charsLeads "${product_tag}".data (c :: cs) && values.product_tag.isSome then
      (values.product_tag.getD "").data ++ simulSubstAux values n (List.drop 13 cs)
    else
      c :: simulSubstAux values n cs

def simulSubstChars (values : QueryTemplateValues) (l : List Char) : List Char :=
  simulSubstAux values l.length l

/-- Claim C7's reading of `substituteQueryTemplate`, on `String`s. -/
def substituteQueryTemplateSpec (template : String) (values : QueryTemplateValues) : String :=
  String.mk (simulSubstChars values template.data)

/-- Claim C7 as stated: the source substitution behaves as a simultaneous
replacement of the supplied tokens. -/
def substituteClaimC7 : Prop :=
  ∀ template values, substituteQueryTemplate template values = substituteQueryTemplateSpec template values

/-- SOQL literal escaping (part_002 lines 409-411): double every single quote. -/
def escapeSoqlString (s : String) : String :=
  String.mk ((s.data.map (fun c => if c == '\'' then ['\'', '\''] else [c])).flatten)

/-- The SOSL reserved character class of part_002 line 418
(regex `[?&|!{}[\]()^~:\\"'+=-]`). -/
def soslReservedChars : List Char :=
  ['?', '&', '|', '!', '{', '}', '[', ']', '(', ')', '^', '~', ':', '\\', '"', '\'', '+', '=', '-']

/-- `escapeSoslString` from part_002 lines 417-419: backslash-escape every
occurrence of a reserved character (`'\\$&'` on a single-character class). -/
def escapeSoslString (s : String) : String :=
  String.mk ((s.data.map (fun c => if soslReservedChars.contains c then ['\\', c] else [c])).flatten)

/-- Token response from the OAuth token endpoint (interface TokenResponse). -/
structure TokenResponse where
  access_token : String
  instance_url : String
  refresh_token : Option String
  token_type : Option String
  deriving DecidableEq, Repr

/-- Settled result of an async operation: resolve with a value or reject with
an error message. -/
inductive Outcome (α : Type) where
  | ok (value : α)
  | err (msg : String)
  deriving DecidableEq, Repr

/-- JS truthiness of a `string | null` query-parameter value: truthy iff
present and non-empty. -/
def truthyOpt : Option String → Bool
  | some s => s != ""
  | none => false

/-- An HTTP request as the callback handler of `loginViaBrowser` sees it:
the parsed pathname and the four `searchParams.get` results (part_002 lines
227-236; `none` models `null` for an absent parameter). -/
structure CallbackRequest where
  pathname : String
  code : Option String
  state : Option String
  error : Option String
  error_description : Option String
  deriving DecidableEq, Repr

/-- What the callback handler does with one request. -/
inductive CallbackAction where
  | notFound
  | failOauth (msg : String)
  | failInvalidState
  | failNoCode
  | proceedExchange (code : String)
  deriving DecidableEq, Repr

/-- The request dispatch of `loginViaBrowser`'s callback handler (part_002
lines 226-264): non-redirect paths get 404; then `if (error)` (JS truthiness),
then `returnedState !== state`, then `if (!code)` (JS truthiness), else the
token exchange proceeds with the code. -/
def handleCallback (expected : String) (r : CallbackRequest) : CallbackAction :=
  if r.pathname ≠ "/OauthRedirect" then .notFound
  else if truthyOpt r.error then .failOauth (r.error_description.getD (r.error.getD ""))
  else if r.state ≠ some expected then .failInvalidState
  else if truthyOpt r.code = false then .failNoCode
  else .proceedExchange (r.code.getD "")

/-- The settlement a single callback request produces, given the result the
token exchange would return for a code: `none` when the request does not
settle the flow (404 path), otherwise the rejection or the exchange outcome
(part_002 lines 241-281). -/
def flowResult (expected : String) (exchange : String → Outcome TokenResponse)
    (r : CallbackRequest) : Option (Outcome TokenResponse) :=
  match handleCallback expected r with
  | .notFound => none
  | .failOauth m => some (.err ("OAuth error: " ++ m))
  | .failInvalidState => some (.err "Invalid state parameter")
  | .failNoCode => some (.err "No authorization code received")
  | .proceedExchange code => some (exchange code)

/-- Claim C1's cascade as stated: branch (1) fires whenever the `error`
parameter is *present*, and branch (3) whenever the `code` parameter is
*absent* (presence, not JS truthiness). -/
def c1StatedCascade (expected : String) (exchange : String → Outcome TokenResponse)
    (r : CallbackRequest) : Option (Outcome TokenResponse) :=
  if r.pathname ≠ "/OauthRedirect" then none
  else if r.error.isSome then
    some (.err ("OAuth error: " ++ r.error_description.getD (r.error.getD "")))
  else if r.state ≠ some expected then some (.err "Invalid state parameter")
  else if r.code.isNone then some (.err "No authorization code received")
  else some (exchange (r.code.getD ""))

/-- Claim C1 as stated: the handler implements the presence-based cascade. -/
def c1Claim : Prop :=
  ∀ expected exchange r, flowResult expected exchange r = c1StatedCascade expected exchange r

/-- Claim C1's cascade amended to JS truthiness: branch (1) fires only for a
present *non-empty* `error` value, and branch (3) also when `code` is present
but empty. -/
def c1AmendedCascade (expected : String) (exchange : String → Outcome TokenResponse)
    (r : CallbackRequest) : Option (Outcome TokenResponse) :=
  if r.pathname ≠ "/OauthRedirect" then none
  else if truthyOpt r.error then
    some (.err ("OAuth error: " ++ r.error_description.getD (r.error.getD "")))
  else if r.state ≠ some expected then some (.err "Invalid state parameter")
  else if truthyOpt r.code = false then some (.err "No authorization code received")
  else some (exchange (r.code.getD ""))

/-- Runtime resources of one `loginViaBrowser` invocation: the settlement
delivered to the caller (first settle wins, as for a JS promise), whether the
watchdog timer is armed, whether the HTTP listener is accepting requests, and
whether the `listen` attempt has resolved (`listening` fired / `error` fired). -/
structure FlowState where
  settled : Option (Outcome TokenResponse)
  timerArmed : Bool
  serverOpen : Bool
  listenStarted : Bool
  listenFailed : Bool
  deriving DecidableEq, Repr

/-- State right after the promise executor of `loginViaBrowser` ran (part_002
lines 225-297): the watchdog `setTimeout` is armed, `server.listen` has been
called but has not resolved yet. -/
def initFlow : FlowState :=
  { settled := none, timerArmed := true, serverOpen := false,
    listenStarted := false, listenFailed := false }

/-- Settle the flow's promise: the first `resolve`/`reject` wins, later calls
are absorbed (JS promise semantics). -/
def settleFlow (s : FlowState) (v : Outcome TokenResponse) : FlowState :=
  match s.settled with
  | some _ => s
  | none => { s with settled := some v }

/-- Events the event loop can deliver to one `loginViaBrowser` invocation.
`listenOk` is the `server.listen` callback together with the outcome of the
`openBrowser` call it performs; `listenErr` is the server `error` event (bind
failure); `request` is an HTTP request hitting the handler, carrying the
outcome the token exchange would produce for its code; `timeout` is the
watchdog firing. -/
inductive FlowEvent where
  | listenOk (browser : Outcome Unit)
  | listenErr (msg : String)
  | request (r : CallbackRequest) (exch : String → Outcome TokenResponse)
  | timeout

/-- One atomic handler execution, exactly as the code's handlers read:
`timeout` closes the server and rejects; `listenErr` clears the timer and
rejects (the code does not call `server.close()` there); `listenOk` marks the
listener open and, when `openBrowser` fails, only rejects (the code neither
closes the server nor clears the timer there); a `request` follows
`handleCallback`, where every settling branch clears the timer and closes the
server before settling. -/
def stepFlow (expected : String) (s : FlowState) : FlowEvent → FlowState
  | .listenOk browser =>
    match browser with
    | .ok _ => { s with listenStarted := true, serverOpen := true }
    | .err e => settleFlow { s with listenStarted := true, serverOpen := true } (.err e)
  | .listenErr m =>
    settleFlow { s with listenFailed := true, timerArmed := false } (.err m)
  | .timeout =>
    settleFlow { s with timerArmed := false, serverOpen := false }
      (.err "Login callback timed out. Please try again.")
  | .request r exch =>
    match handleCallback expected r with
    | .notFound => s
    | .failOauth m =>
      settleFlow { s with timerArmed := false, serverOpen := false }
        (.err ("OAuth error: " ++ m))
    | .failInvalidState =>
      settleFlow { s with timerArmed := false, serverOpen := false }
        (.err "Invalid state parameter")
    | .failNoCode =>
      settleFlow { s with timerArmed := false, serverOpen := false }
        (.err "No authorization code received")
    | .proceedExchange code =>
      settleFlow { s with timerArmed := false, serverOpen := false } (exch code)

/-- Which events the runtime can deliver in a given state: the `listen`
attempt resolves exactly once; requests reach the handler only while the
listener is open; a cleared or fired timer cannot fire (again). The watchdog
(5 minutes) is modelled as never beating the bind resolution itself. -/
def deliverable (s : FlowState) : FlowEvent → Bool
  | .listenOk _ => !s.listenStarted && !s.listenFailed
  | .listenErr _ => !s.listenStarted && !s.listenFailed
  | .request _ _ => s.serverOpen
  | .timeout => s.timerArmed && (s.listenStarted || s.listenFailed)

/-- Run a sequence of events. -/
def runFlow (expected : String) : FlowState → List FlowEvent → FlowState
  | s, [] => s
  | s, e :: es => runFlow expected (stepFlow expected s e) es

/-- Is every event of the trace deliverable when it occurs? -/
def validFrom (expected : String) : FlowState → List FlowEvent → Bool
  | _, [] => true
  | s, e :: es => deliverable s e && validFrom expected (stepFlow expected s e) es

/-- Does the trace avoid the failing-browser-open event? -/
def eventBrowserOk : FlowEvent → Bool
  | .listenOk (.err _) => false
  | _ => true

/-- True when no event of the trace is a failing browser-open. -/
def browserFailFree (tr : List FlowEvent) : Bool :=
  tr.all eventBrowserOk

/-- Claim C2 as stated (the parts the code is claimed to guarantee on *every*
exit path): the delivered settlement never changes once delivered, and at any
settled point of any valid trace the listener is closed and the watchdog
cancelled. -/
def c2Claim : Prop :=
  (∀ expected s e v, s.settled = some v → (stepFlow expected s e).settled = some v) ∧
  (∀ expected tr, validFrom expected initFlow tr = true →
    (runFlow expected initFlow tr).settled.isSome = true →
    (runFlow expected initFlow tr).serverOpen = false ∧
    (runFlow expected initFlow tr).timerArmed = false)

/-- Invariant of browser-fail-free executions: an open listener means
`listen` resolved; a settled flow has its listener closed and timer cleared;
a settled flow implies the `listen` attempt resolved. -/
def FlowInv (s : FlowState) : Prop :=
  (s.serverOpen = true → s.listenStarted = true) ∧
  (s.settled.isSome = true → s.serverOpen = false ∧ s.timerArmed = false) ∧
  (s.settled.isSome = true → s.listenStarted = true ∨ s.listenFailed = true)

/-- JS `String.prototype.trim` (on the ASCII whitespace the code encounters;
`Char.isWhitespace` matches JS for space, tab, CR, LF). -/
def strTrim (s : String) : String :=
  String.mk (((s.data.dropWhile Char.isWhitespace).reverse.dropWhile Char.isWhitespace).reverse)

/-- `instanceUrl.replace(/\/$/, '')`: strip one trailing slash. -/
def stripTrailingSlash (s : String) : String :=
  match s.data.getLast? with
  | some '/' => String.mk s.data.dropLast
  | _ => s

/-- Uppercase hex digit of a value below 16. -/
def hexDigit (n : Nat) : Char :=
  if n < 10 then Char.ofNat (48 + n) else Char.ofNat (55 + n)

/-- UTF-8 bytes of a character. -/
def utf8BytesOf (c : Char) : List Nat :=
  let n := c.toNat
  if n < 0x80 then [n]
  else if n < 0x800 then [0xC0 + n / 64, 0x80 + n % 64]
  else if n < 0x10000 then [0xE0 + n / 4096, 0x80 + (n / 64) % 64, 0x80 + n % 64]
  else [0xF0 + n / 262144, 0x80 + (n / 4096) % 64, 0x80 + (n / 64) % 64, 0x80 + n % 64]

/-- The characters JS `encodeURIComponent` leaves unescaped. -/
def uriUnreserved (c : Char) : Bool :=
  c.isAlpha || c.isDigit || c ∈ ['-', '_', '.', '!', '~', '*', '\'', '(', ')']

/-- JS `encodeURIComponent`: percent-encode the UTF-8 bytes of every character
outside the unreserved set. -/
def encodeURIComponent (s : String) : String :=
  String.mk ((s.data.map (fun c =>
    if uriUnreserved c then [c]
    else ((utf8BytesOf c).map (fun b =>
      ['%', hexDigit (b / 16), hexDigit (b % 16)])).flatten)).flatten)

/-- An `Id`/`Name` pair of a SOSL `searchRecords` entry. -/
structure IdName where
  Id : String
  Name : String
  deriving DecidableEq, Repr

/-- A record object of a SOQL `records` array, holding exactly the fields the
code reads. `Name` is doubly optional: outer `none` models an absent key
(`'Name' in rec` is false), `some none` a key present with value `null`,
`some (some s)` a string value. The other fields are read only through `??`
or passed through, where `null` and `undefined` are indistinguishable, so a
single `Option` level suffices for them. -/
structure SoqlRecordJ where
  Id : String
  Name : Option (Option String)
  Subject__c : Option String
  Status__c : Option String
  Details__c : Option String
  CurrencyIsoCode : Option String
  Severity__c : Option String
  Assignee__c : Option String
  CreatedDate : Option String
  LastModifiedDate : Option String
  Scrum_Team__c : Option String
  deriving DecidableEq, Repr

/-- A record with only an `Id` (every other field absent). -/
def bareRec (id : String) : SoqlRecordJ :=
  { Id := id, Name := none, Subject__c := none, Status__c := none, Details__c := none,
    CurrencyIsoCode := none, Severity__c := none, Assignee__c := none,
    CreatedDate := none, LastModifiedDate := none, Scrum_Team__c := none }

/-- Work item projection (interface GusWorkItem). -/
structure GusWorkItem where
  id : String
  name : String
  subject : String
  status : String
  description : Option String
  currencyIsoCode : Option String
  severity : Option String
  assigneeId : Option String
  createdDate : Option String
  lastModifiedDate : Option String
  deriving DecidableEq, Repr

/-- `parseWorkItem` (part_002 lines 350-363): `name`, `subject`, `status`
default to the empty string (`?? ''`); optional fields pass through. -/
def parseWorkItem (rec : SoqlRecordJ) : GusWorkItem :=
  { id := rec.Id
    name := (rec.Name.getD none).getD ""
    subject := rec.Subject__c.getD ""
    status := rec.Status__c.getD ""
    description := rec.Details__c
    currencyIsoCode := rec.CurrencyIsoCode
    severity := rec.Severity__c
    assigneeId := rec.Assignee__c
    createdDate := rec.CreatedDate
    lastModifiedDate := rec.LastModifiedDate }

/-- A parsed JSON response body, seen through exactly the accessor paths the
code uses: `data[0]?.message`, `data.message`, `data.error_description`,
`data.user_id`, `data.done`, `data.records`, `data.nextRecordsUrl`,
`data.searchRecords`, `data.id`, `data.success`, and
`(Array.isArray(data.errors) ? data.errors[0] : data.errors)?.message`.
An absent field is `none`. -/
structure JsBody where
  firstErrMessage : Option String
  message : Option String
  error_description : Option String
  user_id : Option String
  done : Option Bool
  records : Option (List SoqlRecordJ)
  nextRecordsUrl : Option String
  searchRecords : Option (List IdName)
  id : Option String
  success : Option Bool
  errors0Message : Option String
  deriving DecidableEq, Repr

/-- The body a failed `res.json()` parse yields: `{}` (all fields absent). -/
def emptyBody : JsBody :=
  { firstErrMessage := none, message := none, error_description := none, user_id := none,
    done := none, records := none, nextRecordsUrl := none, searchRecords := none,
    id := none, success := none, errors0Message := none }

/-- An HTTP response as the injected `RequestFn` returns it; a JSON parse
failure is folded into `body := emptyBody`. -/
structure HttpResp where
  ok : Bool
  status : Nat
  body : JsBody
  deriving DecidableEq, Repr

/-- The error message extraction `data[0]?.message ?? data.message ??
`HTTP ${status}`` shared by the query and search endpoints. -/
def jsErrMsg (r : HttpResp) : String :=
  r.body.firstErrMessage.getD (r.body.message.getD ("HTTP " ++ toString r.status))

/-- Result of a paginated SOQL query run. `starved` means the scripted
response transcript ran out (a request is still in flight — no terminal
behavior of the code corresponds to it). -/
inductive QueryResult where
  | ok (items : List GusWorkItem)
  | fail (msg : String)
  | starved
  deriving DecidableEq, Repr

/-- The URL of the first `queryWorkItems` request. -/
def queryUrl (base soql : String) : String :=
  base ++ "/services/data/v51.0/query?q=" ++ encodeURIComponent soql

/-- The pagination loop of `queryWorkItems` (part_002 lines 379-402): a
non-ok response throws with the extracted message; otherwise the page's
records are appended, and the loop stops on `done` (JS truthiness), else
follows `` `${base}${body.nextRecordsUrl}` `` when `nextRecordsUrl` is truthy
(present and non-empty — `else if (body.nextRecordsUrl)`), else stops.
Returns the result together with the list of requested URLs in order. -/
def queryPages (base : String) : String → List HttpResp → List GusWorkItem →
    QueryResult × List String
  | url, [], _ => (QueryResult.starved, [url])
  | url, r :: rest, acc =>
    if r.ok = false then
      (QueryResult.fail ("SOQL query failed: " ++ jsErrMsg r), [url])
    else
      let acc2 := acc ++ (r.body.records.getD []).map parseWorkItem
      if r.body.done.getD false then (QueryResult.ok acc2, [url])
      else if truthyOpt r.body.nextRecordsUrl then
        let res := queryPages base (base ++ r.body.nextRecordsUrl.getD "") rest acc2
        (res.1, url :: res.2)
      else (QueryResult.ok acc2, [url])

/-- `queryWorkItems` (part_002 lines 368-404) against a response transcript. -/
def queryWorkItems (accessToken instanceUrl soql : String) (resps : List HttpResp) :
    QueryResult × List String :=
  let base := stripTrailingSlash instanceUrl
  queryPages base (queryUrl base soql) resps []

/-- Claim C4's continuation rule as stated: prefix the continuation reference
with the instance base only when it is a relative path. -/
def c4NextUrl (base nxt : String) : String :=
  if charsLeads "/".data nxt.data then base ++ nxt else nxt

/-- The pagination loop as claim C4 words it: stop on `done:true` or when the
response "carries no nextRecordsUrl", otherwise continue at the continuation
reference "prefixed with instanceUrl if it is a relative path". -/
def c4StatedPages (base : String) : String → List HttpResp → List GusWorkItem →
    QueryResult × List String
  | url, [], _ => (QueryResult.starved, [url])
  | url, r :: rest, acc =>
    if r.ok = false then
      (QueryResult.fail ("SOQL query failed: " ++ jsErrMsg r), [url])
    else
      let acc2 := acc ++ (r.body.records.getD []).map parseWorkItem
      if r.body.done.getD false then (QueryResult.ok acc2, [url])
      else
        match r.body.nextRecordsUrl with
        | some nxt =>
          let res := c4StatedPages base (c4NextUrl base nxt) rest acc2
          (res.1, url :: res.2)
        | none => (QueryResult.ok acc2, [url])

/-- Claim C4 as stated: the executor follows the continuation reference,
prefixing it with the instance base only when it is relative. -/
def c4Claim : Prop :=
  ∀ accessToken instanceUrl soql resps,
    queryWorkItems accessToken instanceUrl soql resps =
      (let base := stripTrailingSlash instanceUrl
       c4StatedPages base (queryUrl base soql) resps [])

/-- Cached token (interface CachedToken); `timeCollected` is the stored ISO
timestamp modelled as the epoch milliseconds `new Date(...).getTime()` yields
for it. -/
structure CachedToken where
  accessToken : String
  instanceUrl : String
  timeCollectedMs : Int
  deriving DecidableEq, Repr

/-- Result of `getAuthenticatedClient` together with its observable side
effects: whether the login flow (and so the browser-open side effect) ran,
and what was written to the token storage. -/
structure AuthClientResult where
  accessToken : String
  instanceUrl : String
  loginRan : Bool
  persisted : Option CachedToken
  deriving DecidableEq, Repr

/-- The login tail of `getAuthenticatedClient` (part_002 lines 832-851): run
the login flow (modelled by its outcome), build the fresh cache entry stamped
with the current time, persist it when a storage is configured, and return
its token and instance URL. -/
def getAuthenticatedClientLogin (nowMs : Int) (storageConfigured : Bool)
    (login : Outcome TokenResponse) : Outcome AuthClientResult :=
  match login with
  | .err e => .err e
  | .ok t =>
    let fresh : CachedToken :=
      { accessToken := t.access_token, instanceUrl := t.instance_url, timeCollectedMs := nowMs }
    .ok { accessToken := fresh.accessToken, instanceUrl := fresh.instanceUrl,
          loginRan := true, persisted := if storageConfigured then some fresh else none }

/-- `getAuthenticatedClient` (part_002 lines 812-852): with a configured
storage holding a credential younger than `maxAgeHours` (default 8) in
milliseconds, return it verbatim without logging in; otherwise run the login
flow, persist the fresh token, and return it. `storage` is `none` when no
tokenStorage is configured, `some c` when one is configured and `get()`
returned `c`. -/
def getAuthenticatedClient (nowMs : Int) (maxAgeHours : Option Int)
    (storage : Option (Option CachedToken)) (login : Outcome TokenResponse) :
    Outcome AuthClientResult :=
  let maxAge := maxAgeHours.getD 8
  match storage with
  | some (some cached) =>
    if nowMs - cached.timeCollectedMs < maxAge * 3600000 then
      .ok { accessToken := cached.accessToken, instanceUrl := cached.instanceUrl,
            loginRan := false, persisted := none }
    else
      getAuthenticatedClientLogin nowMs storage.isSome login
  | _ => getAuthenticatedClientLogin nowMs storage.isSome login

/-- `fetchUserInfo` (part_002 lines 303-322) against a transcript: one GET on
the userinfo endpoint; non-ok throws with
`error_description ?? message ?? HTTP <status>`. Returns the outcome, the
requested URLs and the remaining transcript. -/
def fetchUserInfo (accessToken instanceUrl : String) (resps : List HttpResp) :
    Option (Outcome JsBody × List String × List HttpResp) :=
  match resps with
  | [] => none
  | r :: rest =>
    let url := stripTrailingSlash instanceUrl ++ "/services/oauth2/userinfo"
    if r.ok = false then
      some (.err ("User info failed: " ++
        r.body.error_description.getD (r.body.message.getD ("HTTP " ++ toString r.status))),
        [url], rest)
    else
      some (.ok r.body, [url], rest)

/-- `getCurrentUserId` (part_002 lines 528-539): `fetchUserInfo` with every
failure caught to `null`, then `info?.user_id ?? null`. -/
def getCurrentUserId (accessToken instanceUrl : String) (resps : List HttpResp) :
    Option (Option String × List String × List HttpResp) :=
  match fetchUserInfo accessToken instanceUrl resps with
  | none => none
  | some (.err _, calls, rest) => some (none, calls, rest)
  | some (.ok body, calls, rest) => some (body.user_id, calls, rest)

/-- `getUserTeamIds` (part_002 lines 549-570): no user id means no teams; a
non-ok team query also yields no teams; otherwise the truthy `Scrum_Team__c`
values of the records (JS `!!id` also drops empty strings). -/
def getUserTeamIds (accessToken instanceUrl : String) (resps : List HttpResp) :
    Option (List String × List String × List HttpResp) :=
  match getCurrentUserId accessToken instanceUrl resps with
  | none => none
  | some (none, calls, rest) => some ([], calls, rest)
  | some (some uid, calls, rest) =>
    match rest with
    | [] => none
    | r :: rest2 =>
      let base := stripTrailingSlash instanceUrl
      let soql := "SELECT Scrum_Team__c FROM ADM_Scrum_Team_Member__c WHERE Member_Name__c = '"
        ++ escapeSoqlString uid ++ "' LIMIT 100"
      let url := base ++ "/services/data/v51.0/query?q=" ++ encodeURIComponent soql
      if r.ok = false then
        some ([], calls ++ [url], rest2)
      else
        some ((((r.body.records.getD []).filterMap (fun rec => rec.Scrum_Team__c)).filter
          (fun t => t != "")), calls ++ [url], rest2)

/-- `searchProductTags` (part_002 lines 494-522): an empty trimmed term
returns `[]` immediately with no request; otherwise one SOSL search request
whose non-ok response throws with the extracted message. -/
def searchProductTags (accessToken instanceUrl searchTerm : String)
    (resps : List HttpResp) : Option (Outcome (List IdName) × List String) :=
  if strTrim searchTerm = "" then some (.ok [], [])
  else
    match resps with
    | [] => none
    | r :: _ =>
      let base := stripTrailingSlash instanceUrl
      let sosl := "FIND \x7b" ++ escapeSoslString (strTrim searchTerm)
        ++ "*\x7d IN ALL FIELDS RETURNING ADM_Product_Tag__c(Id, Name) LIMIT 10"
      let url := base ++ "/services/data/v51.0/search?q=" ++ encodeURIComponent sosl
      if r.ok = false then
        some (.err ("Product tag search failed: " ++ jsErrMsg r), [url])
      else
        some (.ok ((r.body.searchRecords.getD []).map (fun x => ⟨x.Id, x.Name⟩)), [url])

/-- `searchEpics` (part_002 lines 576-618): an empty trimmed term returns `[]`
immediately with no request; otherwise, when restricted to the user's teams,
the team ids are fetched first and a non-empty list contributes a
`WHERE Team__c IN (...)` clause; then one SOSL search request. -/
def searchEpics (accessToken instanceUrl searchTerm : String) (restrictToMyTeams : Bool)
    (resps : List HttpResp) : Option (Outcome (List IdName) × List String) :=
  if strTrim searchTerm = "" then some (.ok [], [])
  else
    match (if restrictToMyTeams then getUserTeamIds accessToken instanceUrl resps
           else some ([], [], resps)) with
    | none => none
    | some (teamIds, calls0, rest) =>
      let whereClause :=
        if teamIds.length > 0 then
          " WHERE Team__c IN (" ++
            String.intercalate "," (teamIds.map (fun id => "'" ++ escapeSoqlString id ++ "'"))
            ++ ")"
        else ""
      let base := stripTrailingSlash instanceUrl
      let sosl := "FIND \x7b" ++ escapeSoslString (strTrim searchTerm)
        ++ "*\x7d IN ALL FIELDS RETURNING ADM_Epic__c(Id, Name" ++ whereClause ++ ") LIMIT 10"
      let url := base ++ "/services/data/v51.0/search?q=" ++ encodeURIComponent sosl
      match rest with
      | [] => none
      | r :: _ =>
        if r.ok = false then
          some (.err ("Epic search failed: " ++ jsErrMsg r), calls0 ++ [url])
        else
          some (.ok ((r.body.searchRecords.getD []).map (fun x => ⟨x.Id, x.Name⟩)),
            calls0 ++ [url])

/-- Payload for creating a work item (interface CreateWorkItemPayload); the
JSON body built from it is not modelled (no claim concerns it). -/
structure CreateWorkItemPayload where
  Subject__c : String
  Details__c : String
  Product_Tag__c : String
  RecordTypeId : String
  Type__c : Option String
  Epic__c : Option String
  Story_Points__c : Option Int
  Assignee__c : Option String
  deriving DecidableEq, Repr

/-- Result of creating a work item (interface CreateWorkItemResult). -/
structure CreateWorkItemResult where
  id : String
  name : String
  url : String
  deriving DecidableEq, Repr

/-- The name `createWorkItem` derives from the follow-up lookup response:
`getData.records?.[0] && 'Name' in getData.records[0] ?
String(getData.records[0].Name ?? workItemId) : workItemId` — the lookup's
HTTP status is never consulted. -/
def createLookupName (q : HttpResp) (workItemId : String) : String :=
  match q.body.records with
  | some (rec :: _) =>
    match rec.Name with
    | some v => v.getD workItemId
    | none => workItemId
  | _ => workItemId

/-- `createWorkItem` (part_002 lines 663-726) against a transcript: the POST
must be ok with `success` truthy and a truthy `id`, else it throws; then the
follow-up name query runs and the result is assembled with `createLookupName`
and `` `${base}/${workItemId}` ``. -/
def createWorkItem (accessToken instanceUrl : String) (payload : CreateWorkItemPayload)
    (resps : List HttpResp) : Option (Outcome CreateWorkItemResult × List String) :=
  let base := stripTrailingSlash instanceUrl
  let postUrl := base ++ "/services/data/v51.0/sobjects/ADM_Work__c"
  match resps with
  | [] => none
  | post :: rest =>
    if post.ok = false || post.body.success.getD false = false then
      some (.err (post.body.errors0Message.getD
        ("Create work item failed: HTTP " ++ toString post.status)), [postUrl])
    else
      match post.body.id with
      | none => some (.err "Create work item returned no id", [postUrl])
      | some workItemId =>
        if workItemId = "" then
          some (.err "Create work item returned no id", [postUrl])
        else
          let soql := "SELECT Id, Name FROM ADM_Work__c WHERE Id = '"
            ++ escapeSoqlString workItemId ++ "' LIMIT 1"
          let getUrl := base ++ "/services/data/v51.0/query?q=" ++ encodeURIComponent soql
          match rest with
          | [] => none
          | q :: _ =>
            some (.ok { id := workItemId, name := createLookupName q workItemId,
                        url := base ++ "/" ++ workItemId }, [postUrl, getUrl])

/-- Claim C10 as stated: whenever the POST succeeds with an id and the
follow-up lookup fails in any of the listed ways — non-success status,
unparseable body, no records, or a first record without a `Name` key — the
operation succeeds with the name equal to the created id. -/
def c10Claim : Prop :=
  ∀ accessToken instanceUrl payload (post q : HttpResp) (rest : List HttpResp) (i : String),
    post.ok = true → post.body.success.getD false = true → post.body.id = some i → i ≠ "" →
    (q.ok = false ∨ q.body = emptyBody ∨ q.body.records.getD [] = [] ∨
      (∃ rec rs, q.body.records = some (rec :: rs) ∧ rec.Name = none)) →
    (createWorkItem accessToken instanceUrl payload (post :: q :: rest)).map Prod.fst =
      some (.ok { id := i, name := i, url := stripTrailingSlash instanceUrl ++ "/" ++ i })

theorem find?_eq_head?_filter (l : List α) (p : α → Bool) :
    l.find? p = (l.filter p).head? := by
  induction l with
  | nil => rfl
  | cons a as ih =>
    by_cases h : p a = true
    · rw [List.find?_cons_of_pos _ h, List.filter_cons_of_pos h, List.head?_cons]
    · rw [List.find?_cons_of_neg _ h, List.filter_cons_of_neg h, ih]

/-- C6: resolveProject does a case-insensitive exact match first (returning the
first exact candidate in original case), else decides by the case-insensitive
substring matches, enumerating the matching subset (ambiguous) or the full list
(not found) in original order; with the four concrete examples from the spec. -/
theorem c6_resolveProject :
    (∀ q ps, resolveProject q ps = resolveProjectSpec q ps) ∧
    resolveProject "alpha" ["Alpha", "Beta", "Alpha Beta", "Gamma"] =
      ResolveOutcome.resolved "Alpha" ∧
    resolveProject "eta" ["Alpha", "Beta", "Alpha Beta", "Gamma"] =
      ResolveOutcome.ambiguous ["Beta", "Alpha Beta"] ∧
    resolveProject "xyz" ["Alpha", "Beta", "Alpha Beta", "Gamma"] =
      ResolveOutcome.notFound ["Alpha", "Beta", "Alpha Beta", "Gamma"] ∧
    resolveProject "Gam" ["Alpha", "Beta", "Alpha Beta", "Gamma"] =
      ResolveOutcome.resolved "Gamma" := by
  refine ⟨?_, by decide, by decide, by decide, by decide⟩
  intro q ps
  unfold resolveProject resolveProjectSpec
  simp only [find?_eq_head?_filter]
  cases ps.filter (fun p => strLower p == strLower q) <;> rfl

theorem strMk_data (s : String) : String.mk s.data = s := by
  cases s
  rfl

theorem charsLeads_append :
    ∀ (pat l : List Char), charsLeads pat l = true → pat ++ List.drop pat.length l = l := by
  intro pat
  induction pat with
  | nil =>
    intro l _
    simp [List.drop]
  | cons a as ih =>
    intro l h
    cases l with
    | nil => simp [charsLeads] at h
    | cons b bs =>
      simp only [charsLeads, Bool.and_eq_true, beq_iff_eq] at h
      obtain ⟨rfl, h2⟩ := h
      simp only [List.length_cons, List.cons_append, List.drop_succ_cons]
      rw [ih bs h2]

theorem charsReplaceAux_self (pat : List Char) (hp : pat ≠ []) :
    ∀ (n : Nat) (l : List Char), charsReplaceAux pat pat n l = l := by
  intro n
  induction n with
  | zero =>
    intro l
    cases l <;> rfl
  | succ n ih =>
    intro l
    cases l with
    | nil => rfl
    | cons c cs =>
      show (if charsLeads pat (c :: cs) then
          pat ++ charsReplaceAux pat pat n (List.drop (pat.length - 1) cs)
        else c :: charsReplaceAux pat pat n cs) = c :: cs
      by_cases h : charsLeads pat (c :: cs) = true
      · rw [if_pos h, ih]
        have hfit := charsLeads_append pat (c :: cs) h
        cases pat with
        | nil => exact absurd rfl hp
        | cons p ps =>
          simpa only [List.length_cons, Nat.add_sub_cancel, List.drop_succ_cons] using hfit
      · rw [if_neg h, ih]

theorem charsReplace_self (pat : List Char) (hp : pat ≠ []) (l : List Char) :
    charsReplace pat pat l = l :=
  charsReplaceAux_self pat hp l.length l

theorem charsReplaceAux_of_not_contains (pat rep : List Char) :
    ∀ (n : Nat) (l : List Char), charsContains pat l = false → charsReplaceAux pat rep n l = l := by
  intro n
  induction n with
  | zero =>
    intro l _
    cases l <;> rfl
  | succ n ih =>
    intro l h
    cases l with
    | nil => rfl
    | cons c cs =>
      simp only [charsContains, Bool.or_eq_false_iff] at h
      show (if charsLeads pat (c :: cs) then
          rep ++ charsReplaceAux pat rep n (List.drop (pat.length - 1) cs)
        else c :: charsReplaceAux pat rep n cs) = c :: cs
      rw [if_neg (by simp [h.1]), ih cs h.2]

theorem charsReplace_of_not_contains (pat rep l : List Char)
    (h : charsContains pat l = false) : charsReplace pat rep l = l :=
  charsReplaceAux_of_not_contains pat rep l.length l h

theorem strData_mk (l : List Char) : (String.mk l).data = l := rfl

/-- C7 counterexample: the replacements are applied sequentially, so a supplied
value that itself contains a later token is rewritten again — on the template
"${me}" with me = "${team}" and team = "T" the code returns "T", while a
simultaneous replacement (the claim as stated) would return "${team}". -/
theorem c7_counterexample : ¬ substituteClaimC7 := by
  intro h
  have h2 := h "${me}" ⟨some "${team}", some "T", none⟩
  revert h2
  decide

/-- C7 (amended): the three token replacements are applied sequentially (me,
then team, then product_tag), so a supplied value may itself be rewritten by a
later pass; apart from that cascade, every occurrence of a supplied token is
replaced with its value, an unsupplied token is left untouched (not removed,
not emptied), and a template containing none of the three tokens — in
particular any unknown `${...}` token — is returned unchanged. -/
theorem c7_substitute_amended :
    substituteQueryTemplate "WHERE Assignee__c = '${me}'" ⟨some "005xxx", none, none⟩ =
      "WHERE Assignee__c = '005xxx'" ∧
    substituteQueryTemplate "x = ${unknown}" ⟨none, none, none⟩ = "x = ${unknown}" ∧
    substituteQueryTemplate "a ${team} b" ⟨some "X", none, none⟩ = "a ${team} b" ∧
    substituteQueryTemplate "${me}" ⟨some "${team}", some "T", none⟩ = "T" ∧
    (∀ t, substituteQueryTemplate t ⟨none, none, none⟩ = t) ∧
    (∀ t v, strIncludes t "${me}" = false → strIncludes t "${team}" = false →
      strIncludes t "${product_tag}" = false → substituteQueryTemplate t v = t) := by
  refine ⟨by decide, by decide, by decide, by decide, ?_, ?_⟩
  · intro t
    show String.mk (charsReplace _ _ (String.mk (charsReplace _ _
      (String.mk (charsReplace _ _ t.data)).data)).data) = t
    simp only [Option.getD_none, strData_mk]
    rw [charsReplace_self _ (by decide), charsReplace_self _ (by decide),
      charsReplace_self _ (by decide), strMk_data]
  · intro t v h1 h2 h3
    unfold strIncludes at h1 h2 h3
    show String.mk (charsReplace _ _ (String.mk (charsReplace _ _
      (String.mk (charsReplace _ _ t.data)).data)).data) = t
    simp only [strData_mk]
    rw [charsReplace_of_not_contains _ _ _ h1, charsReplace_of_not_contains _ _ _ h2,
      charsReplace_of_not_contains _ _ _ h3, strMk_data]

theorem c7_substitute_amended_witness :
    substituteQueryTemplate "abc" ⟨some "V", none, none⟩ = "abc" :=
  c7_substitute_amended.2.2.2.2.2 "abc" ⟨some "V", none, none⟩ (by decide) (by decide) (by decide)

/-- C8: the SOSL escaper backslash-escapes exactly the reserved characters
`? & | ! { } [ ] ( ) ^ ~ : \ " ' + = -`, leaves every other character (the
asterisk wildcard in particular) unchanged, and acts character by character
(it is a homomorphism for concatenation); includes the spec's "C++ (beta)"
example with an appended `*` wildcard. -/
theorem c8_escapeSosl :
    (∀ s t, escapeSoslString (s ++ t) = escapeSoslString s ++ escapeSoslString t) ∧
    (soslReservedChars.all
      (fun c => escapeSoslString (String.mk [c]) == String.mk ['\\', c])) = true ∧
    (∀ c, soslReservedChars.contains c = false →
      escapeSoslString (String.mk [c]) = String.mk [c]) ∧
    soslReservedChars.contains '*' = false ∧
    escapeSoslString "=" = "\\=" ∧
    escapeSoslString ("C++ (beta)" ++ "*") = "C\\+\\+ \\(beta\\)*" := by
  refine ⟨?_, by decide, ?_, by decide, by decide, by decide⟩
  · intro s t
    cases s with
    | mk a =>
      cases t with
      | mk b =>
        show String.mk ((List.map _ (a ++ b)).flatten) = _
        rw [List.map_append, List.flatten_append]
        rfl
  · intro c h
    have hc : c ∉ soslReservedChars := by simpa using h
    simp [escapeSoslString, hc]

theorem c8_escapeSosl_witness : escapeSoslString (String.mk ['a']) = String.mk ['a'] :=
  c8_escapeSosl.2.2.1 'a' (by decide)

theorem settleFlow_timerArmed (s : FlowState) (v : Outcome TokenResponse) :
    (settleFlow s v).timerArmed = s.timerArmed := by
  cases h : s.settled <;> simp [settleFlow, h]

theorem settleFlow_serverOpen (s : FlowState) (v : Outcome TokenResponse) :
    (settleFlow s v).serverOpen = s.serverOpen := by
  cases h : s.settled <;> simp [settleFlow, h]

theorem settleFlow_listenStarted (s : FlowState) (v : Outcome TokenResponse) :
    (settleFlow s v).listenStarted = s.listenStarted := by
  cases h : s.settled <;> simp [settleFlow, h]

theorem settleFlow_listenFailed (s : FlowState) (v : Outcome TokenResponse) :
    (settleFlow s v).listenFailed = s.listenFailed := by
  cases h : s.settled <;> simp [settleFlow, h]

theorem settleFlow_settled (s : FlowState) (v : Outcome TokenResponse) :
    (settleFlow s v).settled = some (s.settled.getD v) := by
  cases h : s.settled <;> simp [settleFlow, h]

theorem settled_stable (expected : String) (s : FlowState) (e : FlowEvent)
    (v : Outcome TokenResponse) (h : s.settled = some v) :
    (stepFlow expected s e).settled = some v := by
  cases e with
  | listenOk browser =>
    cases browser with
    | ok _ => simpa [stepFlow] using h
    | err m => simp [stepFlow, settleFlow_settled, h]
  | listenErr m => simp [stepFlow, settleFlow_settled, h]
  | timeout => simp [stepFlow, settleFlow_settled, h]
  | request r exch =>
    cases hc : handleCallback expected r <;>
      simp [stepFlow, hc, settleFlow_settled, h]

theorem timer_stays_cleared (expected : String) (s : FlowState) (e : FlowEvent)
    (h : s.timerArmed = false) : (stepFlow expected s e).timerArmed = false := by
  cases e with
  | listenOk browser =>
    cases browser with
    | ok _ => simpa [stepFlow] using h
    | err m => simp [stepFlow, settleFlow_timerArmed, h]
  | listenErr m => simp [stepFlow, settleFlow_timerArmed]
  | timeout => simp [stepFlow, settleFlow_timerArmed]
  | request r exch =>
    cases hc : handleCallback expected r <;>
      simp [stepFlow, hc, settleFlow_timerArmed, h]

theorem flowInv_step (expected : String) (s : FlowState) (e : FlowEvent)
    (hInv : FlowInv s) (hDel : deliverable s e = true) (hBf : eventBrowserOk e = true) :
    FlowInv (stepFlow expected s e) := by
  obtain ⟨h1, h2, h3⟩ := hInv
  cases e with
  | listenOk browser =>
    cases browser with
    | ok _ =>
      simp only [deliverable, Bool.and_eq_true, Bool.not_eq_true'] at hDel
      refine ⟨fun _ => rfl, ?_, fun _ => Or.inl rfl⟩
      intro hs
      simp only [stepFlow] at hs
      rcases h3 hs with h | h
      · rw [hDel.1] at h
        exact absurd h (by simp)
      · rw [hDel.2] at h
        exact absurd h (by simp)
    | err m => simp [eventBrowserOk] at hBf
  | listenErr m =>
    simp only [deliverable, Bool.and_eq_true, Bool.not_eq_true'] at hDel
    have hO : s.serverOpen = false := by
      cases hso : s.serverOpen
      · rfl
      · rw [h1 hso] at hDel
        exact absurd hDel.1 (by simp)
    refine ⟨?_, ?_, ?_⟩
    · intro hso
      rw [stepFlow, settleFlow_serverOpen] at hso
      simp only at hso
      rw [hO] at hso
      exact absurd hso (by simp)
    · intro _
      constructor
      · rw [stepFlow, settleFlow_serverOpen]
        simpa using hO
      · rw [stepFlow, settleFlow_timerArmed]
    · intro _
      right
      rw [stepFlow, settleFlow_listenFailed]
  | timeout =>
    simp only [deliverable, Bool.and_eq_true] at hDel
    refine ⟨?_, ?_, ?_⟩
    · intro hso
      rw [stepFlow, settleFlow_serverOpen] at hso
      exact absurd hso (by simp)
    · intro _
      refine ⟨?_, ?_⟩
      · rw [stepFlow, settleFlow_serverOpen]
      · rw [stepFlow, settleFlow_timerArmed]
    · intro _
      rw [stepFlow, settleFlow_listenStarted, settleFlow_listenFailed]
      simpa using hDel.2
  | request r exch =>
    simp only [deliverable] at hDel
    cases hc : handleCallback expected r with
    | notFound =>
      rw [stepFlow]
      simp only [hc]
      exact ⟨h1, h2, h3⟩
    | failOauth m =>
      rw [stepFlow]
      simp only [hc]
      refine ⟨?_, ?_, ?_⟩
      · intro hso
        rw [settleFlow_serverOpen] at hso
        exact absurd hso (by simp)
      · intro _
        exact ⟨by rw [settleFlow_serverOpen], by rw [settleFlow_timerArmed]⟩
      · intro _
        left
        rw [settleFlow_listenStarted]
        exact h1 hDel
    | failInvalidState =>
      rw [stepFlow]
      simp only [hc]
      refine ⟨?_, ?_, ?_⟩
      · intro hso
        rw [settleFlow_serverOpen] at hso
        exact absurd hso (by simp)
      · intro _
        exact ⟨by rw [settleFlow_serverOpen], by rw [settleFlow_timerArmed]⟩
      · intro _
        left
        rw [settleFlow_listenStarted]
        exact h1 hDel
    | failNoCode =>
      rw [stepFlow]
      simp only [hc]
      refine ⟨?_, ?_, ?_⟩
      · intro hso
        rw [settleFlow_serverOpen] at hso
        exact absurd hso (by simp)
      · intro _
        exact ⟨by rw [settleFlow_serverOpen], by rw [settleFlow_timerArmed]⟩
      · intro _
        left
        rw [settleFlow_listenStarted]
        exact h1 hDel
    | proceedExchange code =>
      rw [stepFlow]
      simp only [hc]
      refine ⟨?_, ?_, ?_⟩
      · intro hso
        rw [settleFlow_serverOpen] at hso
        exact absurd hso (by simp)
      · intro _
        exact ⟨by rw [settleFlow_serverOpen], by rw [settleFlow_timerArmed]⟩
      · intro _
        left
        rw [settleFlow_listenStarted]
        exact h1 hDel

theorem flowInv_run (expected : String) :
    ∀ (tr : List FlowEvent) (s : FlowState), FlowInv s → validFrom expected s tr = true →
      browserFailFree tr = true → FlowInv (runFlow expected s tr) := by
  intro tr
  induction tr with
  | nil =>
    intro s h _ _
    exact h
  | cons e es ih =>
    intro s h hV hB
    simp only [validFrom, Bool.and_eq_true] at hV
    simp only [browserFailFree, List.all_cons, Bool.and_eq_true] at hB
    exact ih _ (flowInv_step expected s e h hV.1 hB.1) hV.2 hB.2

theorem no_timeout_of_disarmed (expected : String) :
    ∀ (tr : List FlowEvent) (s : FlowState), s.timerArmed = false →
      validFrom expected s tr = true → FlowEvent.timeout ∉ tr := by
  intro tr
  induction tr with
  | nil =>
    intro s _ _ h
    exact absurd h (List.not_mem_nil _)
  | cons e es ih =>
    intro s hT hV hMem
    simp only [validFrom, Bool.and_eq_true] at hV
    rcases List.mem_cons.mp hMem with rfl | hMem
    · have := hV.1
      rw [deliverable, hT] at this
      exact absurd this (by simp)
    · exact ih (stepFlow expected s e) (timer_stays_cleared expected s e hT) hV.2 hMem

theorem closed_stays_closed (expected : String) (s : FlowState) (e : FlowEvent)
    (hO : s.serverOpen = false) (hR : s.listenStarted = true ∨ s.listenFailed = true)
    (hDel : deliverable s e = true) :
    (stepFlow expected s e).serverOpen = false ∧
      ((stepFlow expected s e).listenStarted = true ∨
        (stepFlow expected s e).listenFailed = true) := by
  cases e with
  | listenOk browser =>
    exfalso
    simp only [deliverable, Bool.and_eq_true, Bool.not_eq_true'] at hDel
    rcases hR with h | h
    · rw [hDel.1] at h
      exact absurd h (by simp)
    · rw [hDel.2] at h
      exact absurd h (by simp)
  | listenErr m =>
    exfalso
    simp only [deliverable, Bool.and_eq_true, Bool.not_eq_true'] at hDel
    rcases hR with h | h
    · rw [hDel.1] at h
      exact absurd h (by simp)
    · rw [hDel.2] at h
      exact absurd h (by simp)
  | timeout =>
    refine ⟨by rw [stepFlow, settleFlow_serverOpen], ?_⟩
    rw [stepFlow, settleFlow_listenStarted, settleFlow_listenFailed]
    exact hR
  | request r exch =>
    exfalso
    rw [deliverable, hO] at hDel
    exact absurd hDel (by simp)

theorem no_request_when_closed (expected : String) :
    ∀ (tr : List FlowEvent) (s : FlowState), s.serverOpen = false →
      (s.listenStarted = true ∨ s.listenFailed = true) →
      validFrom expected s tr = true →
      ∀ (r : CallbackRequest) (exch : String → Outcome TokenResponse),
        FlowEvent.request r exch ∉ tr := by
  intro tr
  induction tr with
  | nil =>
    intro s _ _ _ r exch h
    exact absurd h (List.not_mem_nil _)
  | cons e es ih =>
    intro s hO hR hV r exch hMem
    simp only [validFrom, Bool.and_eq_true] at hV
    rcases List.mem_cons.mp hMem with rfl | hMem
    · rw [deliverable, hO] at hV
      exact absurd hV.1 (by simp)
    · have hStep := closed_stays_closed expected s e hO hR hV.1
      exact ih (stepFlow expected s e) hStep.1 hStep.2 hV.2 r exch hMem

/-- C1 counterexample: a redirect-path request with an empty `error` value
(`?error=`) has the `error` parameter *present*, so the claim's first branch
requires an OAuth-error failure, but JS truthiness makes the code skip that
branch and fail on the mismatched state instead. -/
theorem c1_counterexample : ¬ c1Claim := by
  intro h
  have h2 := h "S" (fun _ => Outcome.err "unused")
    { pathname := "/OauthRedirect", code := none, state := some "X",
      error := some "", error_description := none }
  revert h2
  decide

/-- C1 (amended): a request to the redirect path is evaluated in order —
(1) a present *non-empty* `error` fails with "OAuth error:" carrying
error_description (or error when no description), (2) else a `state` not
exactly equal to the generated one fails with the invalid-state error,
(3) else an absent *or empty* `code` fails with the no-code error, (4) else
the token exchange runs on the code and its outcome (the exchanged token
payload on success) settles the flow; a request to any other path produces
the 404 action and leaves the flow state unchanged. -/
theorem c1_callback_order_amended :
    (∀ expected exchange r,
      flowResult expected exchange r = c1AmendedCascade expected exchange r) ∧
    (∀ expected (s : FlowState) r exch, handleCallback expected r = CallbackAction.notFound →
      stepFlow expected s (FlowEvent.request r exch) = s) := by
  constructor
  · intro expected exchange r
    unfold flowResult handleCallback c1AmendedCascade
    split_ifs <;> rfl
  · intro expected s r exch h
    simp only [stepFlow, h]

theorem c1_callback_order_amended_witness :
    stepFlow "S" initFlow (FlowEvent.request
      { pathname := "/other", code := none, state := none, error := none,
        error_description := none } (fun _ => Outcome.err "unused")) = initFlow :=
  c1_callback_order_amended.2 "S" initFlow
    { pathname := "/other", code := none, state := none, error := none,
      error_description := none } (fun _ => Outcome.err "unused") (by decide)

/-- C2 counterexample: when `openBrowser` fails, the code rejects the promise
without closing the listener or clearing the watchdog — after the single
valid event "listen succeeded, openBrowser failed" the flow is settled while
`serverOpen` and `timerArmed` are still true. -/
theorem c2_counterexample : ¬ c2Claim := by
  intro h
  have h2 := (h.2 "s" [FlowEvent.listenOk (Outcome.err "browser failed")]
    (by decide) (by decide)).1
  revert h2
  decide

/-- C2 (amended): exactly one terminal outcome is ever delivered (a settled
flow's outcome never changes); in browser-open-fail-free valid executions the
listener is closed and the watchdog cancelled whenever the flow is settled
(success, every callback failure branch, the watchdog timeout, and bind
errors — where the listener never opened); the watchdog and the callback race
mutually exclusively: once the timer is cleared (in particular by any settling
callback) no timeout event can occur, every settling callback clears the timer
and closes the server, and once the server is closed after the listen attempt
resolved no further callback is delivered. However, on a failing browser-open
the flow settles (rejects) while the listener stays open and the timer stays
armed; the later watchdog firing then closes them without changing the
delivered outcome. -/
theorem c2_flow_lifecycle_amended :
    (∀ expected s e v, s.settled = some v → (stepFlow expected s e).settled = some v) ∧
    (∀ expected tr, validFrom expected initFlow tr = true → browserFailFree tr = true →
      (runFlow expected initFlow tr).settled.isSome = true →
      (runFlow expected initFlow tr).serverOpen = false ∧
      (runFlow expected initFlow tr).timerArmed = false) ∧
    (∀ expected (s : FlowState) tr, s.timerArmed = false →
      validFrom expected s tr = true → FlowEvent.timeout ∉ tr) ∧
    (∀ expected (s : FlowState) r exch, handleCallback expected r ≠ CallbackAction.notFound →
      (stepFlow expected s (FlowEvent.request r exch)).timerArmed = false ∧
      (stepFlow expected s (FlowEvent.request r exch)).serverOpen = false) ∧
    (∀ expected (s : FlowState) tr, s.serverOpen = false →
      (s.listenStarted = true ∨ s.listenFailed = true) → validFrom expected s tr = true →
      ∀ r exch, FlowEvent.request r exch ∉ tr) ∧
    runFlow "s" initFlow [FlowEvent.listenOk (Outcome.err "browser failed")] =
      { settled := some (Outcome.err "browser failed"), timerArmed := true,
        serverOpen := true, listenStarted := true, listenFailed := false } ∧
    runFlow "s" initFlow
        [FlowEvent.listenOk (Outcome.err "browser failed"), FlowEvent.timeout] =
      { settled := some (Outcome.err "browser failed"), timerArmed := false,
        serverOpen := false, listenStarted := true, listenFailed := false } := by
  refine ⟨settled_stable, ?_, fun expected s tr => no_timeout_of_disarmed expected tr s, ?_,
    fun expected s tr => no_request_when_closed expected tr s, by decide, by decide⟩
  · intro expected tr hV hB hSet
    have hInit : FlowInv initFlow := by
      refine ⟨fun h => ?_, fun h => ?_, fun h => ?_⟩ <;> simp [initFlow] at h
    have hInv := flowInv_run expected tr initFlow hInit hV hB
    exact hInv.2.1 hSet
  · intro expected s r exch h
    cases hc : handleCallback expected r with
    | notFound => exact absurd hc h
    | failOauth m =>
      simp only [stepFlow, hc]
      exact ⟨by rw [settleFlow_timerArmed], by rw [settleFlow_serverOpen]⟩
    | failInvalidState =>
      simp only [stepFlow, hc]
      exact ⟨by rw [settleFlow_timerArmed], by rw [settleFlow_serverOpen]⟩
    | failNoCode =>
      simp only [stepFlow, hc]
      exact ⟨by rw [settleFlow_timerArmed], by rw [settleFlow_serverOpen]⟩
    | proceedExchange code =>
      simp only [stepFlow, hc]
      exact ⟨by rw [settleFlow_timerArmed], by rw [settleFlow_serverOpen]⟩

theorem c2_flow_lifecycle_amended_witness :
    (stepFlow "S" initFlow (FlowEvent.request
      { pathname := "/OauthRedirect", code := none, state := none, error := none,
        error_description := none } (fun _ => Outcome.err "unused"))).timerArmed = false :=
  (c2_flow_lifecycle_amended.2.2.2.1 "S" initFlow
    { pathname := "/OauthRedirect", code := none, state := none, error := none,
      error_description := none } (fun _ => Outcome.err "unused") (by decide)).1

/-- C3: with a token storage configured, a stored credential satisfying
`now - timeCollected < maxAgeHours * 3600000` (default 8 hours, strict) is
returned verbatim with no login flow and nothing persisted; otherwise —
stale credential or none stored — the login flow runs and, on success, the
fresh token is persisted stamped with the current time and its
accessToken/instanceUrl are returned; with the spec's fresh-now and
10-hours-stale (maxAgeHours = 8) concrete scenarios. -/
theorem c3_getAuthenticatedClient :
    (∀ nowMs maxAgeHours (c : CachedToken) login,
      nowMs - c.timeCollectedMs < (maxAgeHours.getD 8) * 3600000 →
      getAuthenticatedClient nowMs maxAgeHours (some (some c)) login =
        .ok { accessToken := c.accessToken, instanceUrl := c.instanceUrl,
              loginRan := false, persisted := none }) ∧
    (∀ nowMs maxAgeHours (c : CachedToken) (t : TokenResponse),
      ¬ nowMs - c.timeCollectedMs < (maxAgeHours.getD 8) * 3600000 →
      getAuthenticatedClient nowMs maxAgeHours (some (some c)) (.ok t) =
        .ok { accessToken := t.access_token, instanceUrl := t.instance_url,
              loginRan := true,
              persisted := some { accessToken := t.access_token,
                                  instanceUrl := t.instance_url,
                                  timeCollectedMs := nowMs } }) ∧
    (∀ nowMs maxAgeHours (t : TokenResponse),
      getAuthenticatedClient nowMs maxAgeHours (some none) (.ok t) =
        .ok { accessToken := t.access_token, instanceUrl := t.instance_url,
              loginRan := true,
              persisted := some { accessToken := t.access_token,
                                  instanceUrl := t.instance_url,
                                  timeCollectedMs := nowMs } }) ∧
    getAuthenticatedClient 72000000 none
        (some (some { accessToken := "cachedTok", instanceUrl := "https://gus",
                      timeCollectedMs := 72000000 }))
        (.ok { access_token := "freshTok", instance_url := "https://fresh",
               refresh_token := none, token_type := none }) =
      .ok { accessToken := "cachedTok", instanceUrl := "https://gus",
            loginRan := false, persisted := none } ∧
    getAuthenticatedClient 72000000 (some 8)
        (some (some { accessToken := "staleTok", instanceUrl := "https://gus",
                      timeCollectedMs := 36000000 }))
        (.ok { access_token := "freshTok", instance_url := "https://fresh",
               refresh_token := none, token_type := none }) =
      .ok { accessToken := "freshTok", instanceUrl := "https://fresh",
            loginRan := true,
            persisted := some { accessToken := "freshTok", instanceUrl := "https://fresh",
                                timeCollectedMs := 72000000 } } := by
  refine ⟨?_, ?_, ?_, by decide, by decide⟩
  · intro nowMs maxAgeHours c login h
    simp [getAuthenticatedClient, h]
  · intro nowMs maxAgeHours c t h
    simp [getAuthenticatedClient, getAuthenticatedClientLogin, h]
  · intro nowMs maxAgeHours t
    simp [getAuthenticatedClient, getAuthenticatedClientLogin]

theorem c3_getAuthenticatedClient_witness :
    getAuthenticatedClient 1000 none
        (some (some { accessToken := "tk", instanceUrl := "https://i", timeCollectedMs := 500 }))
        (.err "unused") =
      .ok { accessToken := "tk", instanceUrl := "https://i",
            loginRan := false, persisted := none } :=
  c3_getAuthenticatedClient.1 1000 none
    { accessToken := "tk", instanceUrl := "https://i", timeCollectedMs := 500 }
    (.err "unused") (by decide)

/-- C4 counterexample: the code prefixes the continuation reference with the
instance base unconditionally (`` `${base}${body.nextRecordsUrl}` ``), so for
an absolute continuation URL the second request goes to the concatenation,
not — as the claim's conditional prefixing states — to the absolute URL
itself. -/
theorem c4_counterexample : ¬ c4Claim := by
  intro h
  have h2 := h "tok" "https://inst" "Q"
    [ { ok := true, status := 200,
        body := { emptyBody with
                  done := some false, records := some [bareRec "a"],
                  nextRecordsUrl := some "https://evil/x" } } ]
  revert h2
  decide

/-- C4 (amended): pages are fetched strictly sequentially in order; after an
ok page the loop stops when `done` is true, otherwise continues at the
continuation reference *always* prefixed with the instance base (trailing
slash stripped) when a non-empty continuation is present, otherwise stops
(`else if (body.nextRecordsUrl)` is JS truthiness: an absent or empty
continuation ends the loop); the result accumulates every page's parsed
records in order. The spec's two-page scenario issues exactly the two
expected requests and returns the concatenation of both pages' records, and
a page with a present-but-empty continuation ends the loop after one
request. -/
theorem c4_pagination_amended :
    (∀ base url r rest acc, r.ok = true → r.body.done.getD false = true →
      queryPages base url (r :: rest) acc =
        (QueryResult.ok (acc ++ (r.body.records.getD []).map parseWorkItem), [url])) ∧
    (∀ base url r rest acc, r.ok = true → r.body.done.getD false = false →
      truthyOpt r.body.nextRecordsUrl = false →
      queryPages base url (r :: rest) acc =
        (QueryResult.ok (acc ++ (r.body.records.getD []).map parseWorkItem), [url])) ∧
    (∀ base url r rest acc nxt, r.ok = true → r.body.done.getD false = false →
      r.body.nextRecordsUrl = some nxt → nxt ≠ "" →
      queryPages base url (r :: rest) acc =
        ((queryPages base (base ++ nxt) rest
            (acc ++ (r.body.records.getD []).map parseWorkItem)).1,
          url :: (queryPages base (base ++ nxt) rest
            (acc ++ (r.body.records.getD []).map parseWorkItem)).2)) ∧
    queryWorkItems "tok" "https://inst/" "SELECT Id FROM ADM_Work__c"
        [ { ok := true, status := 200,
            body := { emptyBody with
                      done := some false, records := some [bareRec "a"],
                      nextRecordsUrl := some "/services/data/v51.0/query/01g-next" } },
          { ok := true, status := 200,
            body := { emptyBody with
                      done := some true, records := some [bareRec "b"] } } ] =
      (QueryResult.ok ([bareRec "a", bareRec "b"].map parseWorkItem),
        ["https://inst/services/data/v51.0/query?q=SELECT%20Id%20FROM%20ADM_Work__c",
         "https://inst/services/data/v51.0/query/01g-next"]) ∧
    queryPages "https://inst" "u0"
      [ { ok := true, status := 200,
          body := { emptyBody with
                    done := some false, records := some [bareRec "a"],
                    nextRecordsUrl := some "" } } ] [] =
      (QueryResult.ok [parseWorkItem (bareRec "a")], ["u0"]) := by
  refine ⟨?_, ?_, ?_, by decide, by decide⟩
  · intro base url r rest acc hok hdone
    simp [queryPages, hok, hdone]
  · intro base url r rest acc hok hdone hnxt
    simp [queryPages, hok, hdone, hnxt]
  · intro base url r rest acc nxt hok hdone hnxt hne
    simp [queryPages, hok, hdone, hnxt, truthyOpt, hne]

theorem c4_pagination_amended_witness :
    queryPages "https://inst" "u0"
      [ { ok := true, status := 200, body := { emptyBody with done := some true } } ] [] =
      (QueryResult.ok [], ["u0"]) :=
  c4_pagination_amended.1 "https://inst" "u0"
    { ok := true, status := 200, body := { emptyBody with done := some true } } [] []
    (by decide) (by decide)

/-- C9: a search term that is empty or whitespace-only after trimming makes
both `searchProductTags` and `searchEpics` return the empty list immediately,
issuing no HTTP request and raising no error. -/
theorem c9_empty_search (accessToken instanceUrl term : String) (restrict : Bool)
    (resps : List HttpResp) (h : strTrim term = "") :
    searchProductTags accessToken instanceUrl term resps = some (.ok [], []) ∧
    searchEpics accessToken instanceUrl term restrict resps = some (.ok [], []) := by
  constructor
  · simp [searchProductTags, h]
  · simp [searchEpics, h]

theorem c9_empty_search_witness :
    searchProductTags "tok" "https://inst" "   " [] = some (.ok [], []) ∧
    searchEpics "tok" "https://inst" "   " true [] = some (.ok [], []) :=
  c9_empty_search "tok" "https://inst" "   " true [] (by decide)

/-- C5: a non-success page response aborts the whole query with
"SOQL query failed: " followed by the first error entry's message, else the
top-level message, else the generic "HTTP <status>" (an unparseable body
having been folded to the empty object); this holds at whatever page the
failure occurs (the first conjunct is universal in the page URL and in the
records accumulated so far); an `ok` result is only ever produced when every
consumed response was ok, so a failing run never yields a truncated record
list. Includes the spec's non-2xx-first-page scenario. -/
theorem c5_query_failure :
    (∀ base url r rest acc, r.ok = false →
      queryPages base url (r :: rest) acc =
        (QueryResult.fail ("SOQL query failed: " ++
          r.body.firstErrMessage.getD (r.body.message.getD ("HTTP " ++ toString r.status))),
          [url])) ∧
    (∀ base url resps acc items calls,
      queryPages base url resps acc = (QueryResult.ok items, calls) →
      ∀ r ∈ resps.take calls.length, r.ok = true) ∧
    queryWorkItems "tok" "https://inst" "Q"
      [ { ok := false, status := 400,
          body := { emptyBody with firstErrMessage := some "MALFORMED_QUERY: bad" } } ] =
      (QueryResult.fail "SOQL query failed: MALFORMED_QUERY: bad",
        ["https://inst/services/data/v51.0/query?q=Q"]) ∧
    queryWorkItems "tok" "https://inst" "Q"
      [ { ok := false, status := 500, body := emptyBody } ] =
      (QueryResult.fail "SOQL query failed: HTTP 500",
        ["https://inst/services/data/v51.0/query?q=Q"]) := by
  refine ⟨?_, ?_, by decide, by decide⟩
  · intro base url r rest acc h
    simp [queryPages, h, jsErrMsg]
  · intro base url resps
    induction resps generalizing url with
    | nil =>
      intro acc items calls h
      simp [queryPages] at h
    | cons r rest ih =>
      intro acc items calls h
      simp only [queryPages] at h
      by_cases hok : r.ok = false
      · rw [if_pos hok] at h
        exact absurd (congrArg Prod.fst h) (by simp)
      · rw [if_neg hok] at h
        have hokT : r.ok = true := by
          cases hv : r.ok
          · exact absurd hv hok
          · rfl
        by_cases hdone : r.body.done.getD false = true
        · rw [if_pos hdone] at h
          rw [Prod.mk.injEq] at h
          intro r' hr'
          rw [← h.2] at hr'
          simp at hr'
          rw [hr']
          exact hokT
        · rw [if_neg hdone] at h
          by_cases hnxt : truthyOpt r.body.nextRecordsUrl = true
          · rw [if_pos hnxt] at h
            rw [Prod.mk.injEq] at h
            intro r' hr'
            rw [← h.2] at hr'
            simp only [List.length_cons, List.take_succ_cons] at hr'
            rcases List.mem_cons.mp hr' with rfl | hr2
            · exact hokT
            · have hq : queryPages base (base ++ r.body.nextRecordsUrl.getD "") rest
                  (acc ++ (r.body.records.getD []).map parseWorkItem) =
                  (QueryResult.ok items,
                    (queryPages base (base ++ r.body.nextRecordsUrl.getD "") rest
                      (acc ++ (r.body.records.getD []).map parseWorkItem)).2) := by
                rw [← h.1]
              exact ih (base ++ r.body.nextRecordsUrl.getD "") _ items _ hq r' hr2
          · rw [if_neg hnxt] at h
            rw [Prod.mk.injEq] at h
            intro r' hr'
            rw [← h.2] at hr'
            simp at hr'
            rw [hr']
            exact hokT

theorem c5_query_failure_witness :
    queryPages "https://inst" "u0"
      [ { ok := false, status := 500, body := emptyBody } ] [] =
      (QueryResult.fail "SOQL query failed: HTTP 500", ["u0"]) :=
  c5_query_failure.1 "https://inst" "u0"
    { ok := false, status := 500, body := emptyBody } [] [] (by decide)

/-- C10 counterexample: the lookup's HTTP status is never consulted — a
non-success lookup response whose parseable body still carries a first record
with a Name makes the returned name that Name ("W-9" here), not the created
id, contradicting the claim's non-success-status case. -/
theorem c10_counterexample : ¬ c10Claim := by
  intro h
  have h2 := h "tok" "https://inst"
    { Subject__c := "S", Details__c := "D", Product_Tag__c := "PT", RecordTypeId := "RT",
      Type__c := none, Epic__c := none, Story_Points__c := none, Assignee__c := none }
    { ok := true, status := 201,
      body := { emptyBody with id := some "w1", success := some true } }
    { ok := false, status := 500,
      body := { emptyBody with
                records := some [{ bareRec "w1" with Name := some (some "W-9") }] } }
    [] "w1" (by decide) (by decide) (by decide) (by decide) (Or.inl (by decide))
  revert h2
  decide

/-- C10 (amended): whenever the creation POST succeeds with a (non-empty) id,
the operation succeeds for *every* follow-up lookup response — the lookup's
HTTP status is never consulted; the returned name is the looked-up first
record's Name when the parsed body carries one with a non-null Name key, and
falls back to the created id otherwise (unparseable body, no records, record
without a Name key, or a null Name); the url is the instance base joined with
'/' and the id. -/
theorem c10_create_name_fallback :
    (∀ accessToken instanceUrl payload (post q : HttpResp) (rest : List HttpResp) (i : String),
      post.ok = true → post.body.success.getD false = true →
      post.body.id = some i → i ≠ "" →
      (createWorkItem accessToken instanceUrl payload (post :: q :: rest)).map Prod.fst =
        some (.ok { id := i, name := createLookupName q i,
                    url := stripTrailingSlash instanceUrl ++ "/" ++ i })) ∧
    (∀ (q : HttpResp) (i : String),
      (q.body.records = none ∨ q.body.records = some [] ∨
        (∃ rec rs, q.body.records = some (rec :: rs) ∧
          (rec.Name = none ∨ rec.Name = some none))) →
      createLookupName q i = i) ∧
    (∀ (q : HttpResp) (rec : SoqlRecordJ) (rs : List SoqlRecordJ) (i v : String),
      q.body.records = some (rec :: rs) → rec.Name = some (some v) →
      createLookupName q i = v) := by
  refine ⟨?_, ?_, ?_⟩
  · intro accessToken instanceUrl payload post q rest i hok hsucc hid hne
    simp [createWorkItem, hok, hsucc, hid, hne]
  · intro q i h
    rcases h with h | h | ⟨rec, rs, h, hn | hn⟩
    · simp [createLookupName, h]
    · simp [createLookupName, h]
    · simp [createLookupName, h, hn]
    · simp [createLookupName, h, hn]
  · intro q rec rs i v h hv
    simp [createLookupName, h, hv]

theorem c10_create_name_fallback_witness :
    (createWorkItem "tok" "https://inst"
      { Subject__c := "S", Details__c := "D", Product_Tag__c := "PT", RecordTypeId := "RT",
        Type__c := none, Epic__c := none, Story_Points__c := none, Assignee__c := none }
      [ { ok := true, status := 201,
          body := { emptyBody with id := some "w1", success := some true } },
        { ok := false, status := 500, body := emptyBody } ]).map Prod.fst =
      some (.ok { id := "w1",
                  name := createLookupName
                    { ok := false, status := 500, body := emptyBody } "w1",
                  url := stripTrailingSlash "https://inst" ++ "/" ++ "w1" }) :=
  c10_create_name_fallback.1 "tok" "https://inst"
    { Subject__c := "S", Details__c := "D", Product_Tag__c := "PT", RecordTypeId := "RT",
      Type__c := none, Epic__c := none, Story_Points__c := none, Assignee__c := none }
    { ok := true, status := 201,
      body := { emptyBody with id := some "w1", success := some true } }
    { ok := false, status := 500, body := emptyBody } [] "w1"
    (by decide) (by decide) (by decide) (by decide)
